import Mathlib

/-!
# Verification of the agent-karma `karma-core` contract

A shallow embedding of the karma-core CosmWasm contract
(`contracts/karma-core/src/{compliance,karma,helpers,contract,state}.rs`)
together with proofs about its dispute manager, rate limiter, abuse
detectors, scoring engine and rating-submission pipeline.

Modelling conventions:

* `Uint128` values are modelled as `Nat`.  All stored scores and stakes are
  below `2^128`; `saturating_sub` is Lean's truncated `Nat` subtraction,
  `checked_sub` is guarded by an explicit comparison exactly as in the
  source, and `checked_div` is `Nat` division.  Additions in the dispute
  and penalty paths cannot overflow `u128` for representable states, so
  they are modelled as plain `Nat` addition.
* `Timestamp` is the number of seconds (`Nat`); the contract logic only
  ever inspects `.seconds()`.  Rust `u64` subtraction of timestamps is
  modelled by truncated `Nat` subtraction; every theorem below only uses
  states whose timestamps make those subtractions non-negative.
* `f64` arithmetic (recency/quality weights, decay factors, multipliers,
  variance) is modelled by exact rational arithmetic (the fraction type
  `Q` below); a Rust `as u128`/`as u32` cast is `Q.floorNat`.  For
  every constant appearing in the source (`0.95`, `1.2`, `0.9`, `0.8`,
  thresholds, confidence increments) the double rounding of the actual
  `f64` computation agrees with the exact rational result on the integer
  ranges reachable here, so the comparisons and floors below coincide with
  the compiled code's.
* Storage maps (`cw_storage_plus::Map`) are modelled as functions to
  `Option`; `may_load` is application, `save` is pointwise update,
  `load` is application plus an error on `none` (`StdError::not_found`).
  The indexed ratings map is a list of `(rating_id, StoredRating)` pairs
  kept sorted by ascending primary key, matching `Order::Ascending`
  iteration; index lookups (`idx.rater`, `idx.rated_agent`) are filters
  over that list.
* `deps.api.addr_validate` is modelled as the identity on the already
  well-formed addresses used here; `Addr` is `String`.
* SHA-256 in `generate_calculation_hash` is modelled as an injective
  encoding of the hashed triple (agent address, timestamp seconds, score);
  no claim depends on the digest value itself.
* `std::time::SystemTime::now()` — read by `calculate_base_score_enhanced`
  and `calculate_interaction_bonus_enhanced` — is an input of the
  embedding (`sysNow`), since it is an observation of the outside world.
-/

namespace AgentKarma

/-- Agent addresses (`cosmwasm_std::Addr`). -/
abbrev Addr := String

-- Timestamps (`cosmwasm_std::Timestamp`) are their `.seconds()` value, a
-- plain `Nat`; the contract logic only ever inspects seconds.

/-- Exact rational arithmetic used to model the contract's `f64`
computations: an unnormalized fraction with positive denominator (every
constructor and operation below keeps `den` positive).  Unlike Mathlib's
`ℚ`, these operations avoid gcd normalization, so every value computed by
the embedding reduces inside the kernel.  The arithmetic is exact; for
every constant and comparison appearing in the source the `f64` rounding
agrees with the exact result on the reachable integer ranges. -/
structure Q where
  num : Int
  den : Nat
  deriving Repr

/-- Embed a natural number. -/
def Q.nat (n : Nat) : Q := ⟨n, 1⟩

/-- Addition. -/
def Q.add (a b : Q) : Q := ⟨a.num * b.den + b.num * a.den, a.den * b.den⟩

/-- Subtraction. -/
def Q.sub (a b : Q) : Q := ⟨a.num * b.den - b.num * a.den, a.den * b.den⟩

/-- Multiplication. -/
def Q.mul (a b : Q) : Q := ⟨a.num * b.num, a.den * b.den⟩

/-- Reciprocal; `0⁻¹ = 0`, so that a division by zero yields 0 and the
comparisons below are then false, matching the source's `NaN`
comparisons. -/
def Q.inv (a : Q) : Q :=
  if a.num = 0 then ⟨0, 1⟩
  else if 0 < a.num then ⟨(a.den : Int), a.num.toNat⟩
  else ⟨-(a.den : Int), (-a.num).toNat⟩

/-- Division. -/
def Q.div (a b : Q) : Q := a.mul b.inv

/-- Strict order by cross multiplication (denominators positive). -/
def Q.blt (a b : Q) : Bool := a.num * b.den < b.num * a.den

/-- Non-strict order by cross multiplication. -/
def Q.ble (a b : Q) : Bool := a.num * b.den ≤ b.num * a.den

/-- A Rust float-to-unsigned cast (`as u128`/`as u32`/`as u8`): floor,
with negative values saturating to 0. -/
def Q.floorNat (a : Q) : Nat := (a.num / (a.den : Int)).toNat

/-- Sum of a list of rationals (`f64` summation). -/
def Q.sum (l : List Q) : Q := l.foldl Q.add ⟨0, 1⟩

/-- `crate::error::ContractError` (variants used by the embedded code;
payload strings keep the source's context fields, formatted messages are
elided where they only interpolate numbers). -/
inductive ContractError where
  | Std (msg : String)
  | Overflow
  | AgentNotFound (address : String)
  | InvalidRatingScore (score : Nat)
  | RatingAlreadySubmitted (interactionHash : String)
  | RatingWindowExpired (interactionHash : String)
  | InteractionNotFound (interactionHash : String)
  | CannotRateSelf
  | InsufficientKarma (required current : Nat)
  | MinimumRequirementsNotMet (reason : String)
  | RateLimitExceeded (action : String)
  | ComplianceViolation (reason : String)
  | DisputeAlreadyResolved (caseId : String)
  | AdminRequired
  deriving Repr, DecidableEq

/-- `compliance::ViolationType`. -/
inductive ViolationType where
  | SpamRating
  | RatingManipulation
  | BotBehavior
  | SuspiciousPattern
  | RateLimitExceeded
  deriving Repr, DecidableEq

/-- `compliance::DisputeStatus`. -/
inductive DisputeStatus where
  | Pending
  | UnderReview
  | Resolved
  | Rejected
  deriving Repr, DecidableEq

/-- `compliance::DisputeResolution`. -/
inductive DisputeResolution where
  | ViolationConfirmed
  | ViolationOverturned
  | PartialOverturned
  deriving Repr, DecidableEq

/-- `compliance::DisputeCase`. -/
structure DisputeCase where
  case_id : String
  violation_id : String
  challenger : Addr
  stake_amount : Nat
  evidence : String
  status : DisputeStatus
  created_at : Nat
  resolved_at : Option Nat
  resolution : Option DisputeResolution
  deriving Repr, DecidableEq

/-- `compliance::ComplianceViolation`. -/
structure ComplianceViolation where
  agent_address : Addr
  violation_type : ViolationType
  severity : Nat
  timestamp : Nat
  evidence : String
  penalty_applied : Nat
  disputed : Bool
  deriving Repr, DecidableEq

/-- `compliance::RateLimitTracker`. -/
structure RateLimitTracker where
  agent_address : Addr
  action_type : String
  count : Nat
  window_start : Nat
  last_action : Nat
  deriving Repr, DecidableEq

/-- `agent_karma_contracts::types::Rating`. -/
structure Rating where
  id : String
  rater_address : Addr
  rated_address : Addr
  score : Nat
  feedback : Option String
  interaction_hash : String
  timestamp : Nat
  block_height : Nat
  deriving Repr, DecidableEq

/-- `state::StoredRating`. -/
structure StoredRating where
  rating : Rating
  processed : Bool
  fee_paid : Nat
  deriving Repr, DecidableEq

/-- `state::KarmaScore`.  `average_rating` is stored by the contract as a
decimal string; the embedding keeps the underlying rational value. -/
structure KarmaScore where
  current_score : Nat
  previous_score : Nat
  last_updated : Nat
  total_ratings : Nat
  average_rating : Q
  interaction_count : Nat
  deriving Repr

/-- `impl Default for KarmaScore` (helpers.rs). -/
def KarmaScore.default : KarmaScore :=
  { current_score := 0, previous_score := 0, last_updated := 0,
    total_ratings := 0, average_rating := Q.nat 0, interaction_count := 0 }

/-- `agent_karma_contracts::types::KarmaFactors` (string-formatted fields
keep their rational values). -/
structure KarmaFactors where
  average_rating : Q
  rating_count : Nat
  interaction_frequency : Nat
  time_decay : Q
  external_factors : Option Nat
  deriving Repr

/-- `agent_karma_contracts::types::KarmaCalculation`. -/
structure KarmaCalculation where
  agent_address : Addr
  current_score : Nat
  previous_score : Nat
  factors : KarmaFactors
  last_updated : Nat
  calculation_hash : String
  deriving Repr

/-- `state::RatingTracker` (duplicate prevention). -/
structure RatingTracker where
  interaction_hash : String
  rater : Addr
  submitted_at : Nat
  deriving Repr, DecidableEq

/-- `agent_karma_contracts::types::KarmaConfig`. -/
structure KarmaConfig where
  min_karma_for_rating : Nat
  min_karma_for_voting : Nat
  min_karma_for_proposal : Nat
  rating_window : Nat
  max_ratings_per_interaction : Nat
  rating_fee : Nat
  deriving Repr, DecidableEq

/-- `state::Config`. -/
structure Config where
  admin : Addr
  agent_registry : Addr
  interaction_logger : Addr
  karma_config : KarmaConfig
  deriving Repr, DecidableEq

/-- `cosmwasm_std::Env` (block time in seconds and block height). -/
structure Env where
  block_time : Nat
  block_height : Nat
  deriving Repr, DecidableEq

/-- The contract's persistent storage (`state.rs`).  Every
`cw_storage_plus::Map` becomes a function into `Option`; the indexed
ratings map is an association list sorted by ascending rating id. -/
structure Store where
  config : Option Config
  karma_scores : Addr → Option KarmaScore
  karma_history : Addr × Nat → Option KarmaCalculation
  ratings_store : List (String × StoredRating)
  rating_trackers : String × Addr → Option RatingTracker
  leaderboard : Nat → Option Addr
  rating_counter : Nat
  oracle_data : Addr × String → Option String
  karma_balance : Addr → Option (Nat × Nat)
  compliance_violations : String → Option ComplianceViolation
  dispute_cases : String → Option DisputeCase
  rate_limit_trackers : Addr → Option RateLimitTracker
  karma_penalties : String → Option Nat

/-- Pointwise map update (`Map::save`). -/
def mapSave {α β : Type} [DecidableEq α] (m : α → Option β) (k : α) (v : β) :
    α → Option β :=
  fun a => if a = k then some v else m a

/-- Map removal (`Map::remove`). -/
def mapRemove {α β : Type} [DecidableEq α] (m : α → Option β) (k : α) :
    α → Option β :=
  fun a => if a = k then none else m a

/-- `Item::load` / `Map::load`: an absent record is a `StdError`. -/
def mustLoad {β : Type} (v : Option β) (what : String) :
    Except ContractError β :=
  match v with
  | some b => Except.ok b
  | none => Except.error (ContractError.Std what)

/-- Insert into the sorted ratings association list, keeping ascending key
order and replacing an existing binding (`IndexedMap::save`). -/
def assocSave (l : List (String × StoredRating)) (k : String)
    (v : StoredRating) : List (String × StoredRating) :=
  match l with
  | [] => [(k, v)]
  | (k0, v0) :: rest =>
    if k = k0 then (k, v) :: rest
    else if k < k0 then (k, v) :: (k0, v0) :: rest
    else (k0, v0) :: assocSave rest k v

/-- Projection used to assert failure without comparing whole stores. -/
def errorOf {α : Type} : Except ContractError α → Option ContractError
  | .error e => some e
  | .ok _ => none

/-- Current karma score of an agent as read through
`helpers::get_agent_karma_score` (`unwrap_or_default`). -/
def karmaOf (st : Store) (agent : Addr) : Nat :=
  ((st.karma_scores agent).getD KarmaScore.default).current_score

/-! ## Dispute manager (`compliance.rs`) -/

/-- The unique case id `format!("dispute_{}_{}", violation_id, time)`. -/
def disputeCaseId (violation_id : String) (env : Env) : String :=
  "dispute_" ++ violation_id ++ "_" ++ toString env.block_time

/-- `compliance::create_dispute`. -/
def create_dispute (st : Store) (env : Env) (challenger : Addr)
    (violation_id : String) (stake_amount : Nat) (evidence : String) :
    Except ContractError (String × Store) :=
  -- Verify challenger has enough karma to stake
  let challenger_karma := (st.karma_scores challenger).getD KarmaScore.default
  if challenger_karma.current_score < stake_amount then
    Except.error (ContractError.InsufficientKarma stake_amount
      challenger_karma.current_score)
  else
  let case_id := disputeCaseId violation_id env
  let dispute_case : DisputeCase :=
    { case_id := case_id, violation_id := violation_id,
      challenger := challenger, stake_amount := stake_amount,
      evidence := evidence, status := DisputeStatus.Pending,
      created_at := env.block_time, resolved_at := none, resolution := none }
  let st := { st with dispute_cases := mapSave st.dispute_cases case_id dispute_case }
  -- Deduct stake from challenger's karma (saturating_sub)
  let updated_karma :=
    { challenger_karma with
        current_score := challenger_karma.current_score - stake_amount }
  let st := { st with karma_scores := mapSave st.karma_scores challenger updated_karma }
  Except.ok (case_id, st)

/-- `compliance::resolve_dispute`. -/
def resolve_dispute (st : Store) (env : Env) (case_id : String)
    (resolution : DisputeResolution) : Except ContractError Store := do
  let dispute_case ← mustLoad (st.dispute_cases case_id) "dispute case not found"
  if dispute_case.status ≠ DisputeStatus.Pending then
    throw (ContractError.DisputeAlreadyResolved case_id)
  else
  let dispute_case :=
    { dispute_case with
        status := DisputeStatus.Resolved,
        resolved_at := some env.block_time,
        resolution := some resolution }
  let st ← (match resolution with
    | DisputeResolution.ViolationOverturned => do
      -- Return stake to challenger
      let challenger_karma ← mustLoad
        (st.karma_scores dispute_case.challenger) "karma score not found"
      let challenger_karma :=
        { challenger_karma with
            current_score :=
              challenger_karma.current_score + dispute_case.stake_amount }
      pure { st with karma_scores := mapSave st.karma_scores dispute_case.challenger challenger_karma }
    | DisputeResolution.ViolationConfirmed =>
      -- Stake is forfeited (already deducted)
      pure st
    | DisputeResolution.PartialOverturned => do
      -- Return half the stake (checked_div 2, floor)
      let partial_return := dispute_case.stake_amount / 2
      let challenger_karma ← mustLoad
        (st.karma_scores dispute_case.challenger) "karma score not found"
      let challenger_karma :=
        { challenger_karma with
            current_score := challenger_karma.current_score + partial_return }
      pure { st with karma_scores := mapSave st.karma_scores dispute_case.challenger challenger_karma })
  return { st with dispute_cases := mapSave st.dispute_cases case_id dispute_case }

/-! ## Abuse detection and rate limiting (`compliance.rs`) -/

/-- `compliance::SPAM_RATING_THRESHOLD` (max ratings per hour). -/
def SPAM_RATING_THRESHOLD : Nat := 10

/-- `compliance::RATING_PATTERN_WINDOW` (1 hour in seconds). -/
def RATING_PATTERN_WINDOW : Nat := 3600

/-- `compliance::BOT_BEHAVIOR_THRESHOLD` (max actions per hour). -/
def BOT_BEHAVIOR_THRESHOLD : Nat := 50

/-- `compliance::KARMA_PENALTY_MULTIPLIER`. -/
def KARMA_PENALTY_MULTIPLIER : Nat := 10

/-- `compliance::AbuseDetectionResult`.  Evidence strings keep the
source's message heads; interpolated numbers are elided. -/
structure AbuseDetectionResult where
  is_suspicious : Bool
  violation_type : Option ViolationType
  confidence_score : Q
  evidence : List String
  recommended_penalty : Nat
  deriving Repr

/-- Mean of a score list as a rational (`f64` sum / len). -/
def meanQ (scores : List Nat) : Q :=
  Q.div (Q.sum (scores.map Q.nat)) (Q.nat scores.length)

/-- Population variance Σ(x−mean)²/n of `compliance::calculate_variance`
before its final `sqrt`. -/
def popVarianceSq (scores : List Nat) : Q :=
  Q.div
    (Q.sum (scores.map (fun x =>
      Q.mul (Q.sub (Q.nat x) (meanQ scores)) (Q.sub (Q.nat x) (meanQ scores)))))
    (Q.nat scores.length)

/-- The test `calculate_variance(scores) < MIN_RATING_VARIANCE` of
`detect_spam_ratings`.  `calculate_variance` returns the population
standard deviation (`variance.sqrt()`), or `1.0` for fewer than two
samples; since both sides are non-negative, `sqrt v < 1/2 ↔ v < 1/4`,
and `1.0 < 0.5` is false. -/
def variance_lt_half (scores : List Nat) : Bool :=
  if scores.length < 2 then false
  else Q.blt (popVarianceSq scores) ⟨1, 4⟩

/-- All stored ratings in ascending primary-key order
(`ratings().range(…, Order::Ascending)`). -/
def ratingsAscending (st : Store) : List StoredRating :=
  st.ratings_store.map (fun p => p.2)

/-- Per-target rating count of `detect_spam_ratings`'s
`target_counts` HashMap. -/
def targetCount (l : List StoredRating) (target : Addr) : Nat :=
  (l.filter (fun r => r.rating.rated_address == target)).length

/-- `target_counts.values().max().unwrap_or(&0)`: the maximum over
distinct targets equals the maximum over per-element counts. -/
def maxTargetCount (l : List StoredRating) : Nat :=
  (l.map (fun r => targetCount l r.rating.rated_address)).foldr max 0

/-- The trailing 1-hour window of ratings given by the agent, as filtered
at the top of `detect_spam_ratings` (`rater_address` matches and
`timestamp >= window_start`). -/
def spamWindowRatings (st : Store) (env : Env) (agent : Addr) :
    List StoredRating :=
  (ratingsAscending st).filter
    (fun r => r.rating.rater_address == agent &&
      env.block_time - RATING_PATTERN_WINDOW ≤ r.rating.timestamp)

/-- `compliance::detect_spam_ratings`.  Storage reads cannot fail in the
embedding, so the `StdResult` wrapper is dropped. -/
def detect_spam_ratings (st : Store) (env : Env) (agent : Addr) :
    AbuseDetectionResult :=
  let ratings_list := spamWindowRatings st env agent
  let rating_count := ratings_list.length
  -- Check rating frequency
  let freq := rating_count > SPAM_RATING_THRESHOLD
  -- Check rating score variance (detect bot-like behavior)
  let scores := ratings_list.map (fun r => r.rating.score)
  let lowVar := rating_count > 5 && variance_lt_half scores
  -- Check for rating the same agents repeatedly
  let highShare :=
    Q.blt ⟨4, 5⟩ (Q.div (Q.nat (maxTargetCount ratings_list)) (Q.nat rating_count))
      && rating_count > 3
  let is_suspicious := freq || lowVar || highShare
  let confidence_score : Q :=
    Q.add (Q.add (if freq then ⟨4, 10⟩ else ⟨0, 1⟩)
        (if lowVar then ⟨3, 10⟩ else ⟨0, 1⟩))
      (if highShare then ⟨3, 10⟩ else ⟨0, 1⟩)
  let evidence :=
    (if freq then ["High rating frequency"] else []) ++
      (if lowVar then ["Low rating variance"] else []) ++
        (if highShare then ["Suspicious interaction pattern"] else [])
  let recommended_penalty :=
    if is_suspicious then
      KARMA_PENALTY_MULTIPLIER * Q.floorNat (Q.mul confidence_score (Q.nat 100))
    else 0
  { is_suspicious := is_suspicious,
    violation_type := if is_suspicious then some ViolationType.SpamRating else none,
    confidence_score := confidence_score,
    evidence := evidence,
    recommended_penalty := recommended_penalty }

/-- `compliance::detect_bot_behavior`.  `average_interval` is `u64`
integer division; the source divides by `tracker.count`, which is at
least 1 for every tracker ever saved by `check_rate_limit`. -/
def detect_bot_behavior (st : Store) (env : Env) (agent : Addr) :
    AbuseDetectionResult :=
  let current_time := env.block_time
  match st.rate_limit_trackers agent with
  | none =>
    { is_suspicious := false, violation_type := none,
      confidence_score := Q.nat 0, evidence := [], recommended_penalty := 0 }
  | some tracker =>
    let highFreq := tracker.count > BOT_BEHAVIOR_THRESHOLD
    let time_since_start := current_time - tracker.window_start
    let regular :=
      if time_since_start > 0 then
        time_since_start / tracker.count < 10 && tracker.count > 20
      else false
    let is_suspicious := highFreq || regular
    let confidence_score : Q :=
      Q.add (if highFreq then ⟨5, 10⟩ else ⟨0, 1⟩)
        (if regular then ⟨3, 10⟩ else ⟨0, 1⟩)
    let evidence :=
      (if highFreq then ["High action frequency"] else []) ++
        (if regular then ["Regular timing pattern"] else [])
    let recommended_penalty :=
      if is_suspicious then
        KARMA_PENALTY_MULTIPLIER * 2 * Q.floorNat (Q.mul confidence_score (Q.nat 100))
      else 0
    { is_suspicious := is_suspicious,
      violation_type :=
        if is_suspicious then some ViolationType.BotBehavior else none,
      confidence_score := confidence_score,
      evidence := evidence,
      recommended_penalty := recommended_penalty }

/-- Absolute gap in seconds between two rating timestamps, written as the
source's `if`/`else` pair of `u64` subtractions. -/
def timeDiff (a b : Nat) : Nat := if a > b then a - b else b - a

/-- `compliance::detect_rating_manipulation`. -/
def detect_rating_manipulation (st : Store) (env : Env) (agent : Addr) :
    AbuseDetectionResult :=
  let window_start := env.block_time - RATING_PATTERN_WINDOW * 24
  let given_list := (ratingsAscending st).filter
    (fun r => r.rating.rater_address == agent &&
      window_start ≤ r.rating.timestamp)
  let received_list := (ratingsAscending st).filter
    (fun r => r.rating.rated_address == agent &&
      window_start ≤ r.rating.timestamp)
  -- Check for reciprocal rating patterns (quid pro quo)
  let reciprocal_count :=
    (given_list.map (fun g =>
      (received_list.filter (fun rc =>
        rc.rating.rater_address == g.rating.rated_address &&
          timeDiff g.rating.timestamp rc.rating.timestamp < 3600)).length)).sum
  let reciprocal :=
    reciprocal_count > 3 && given_list.length > 5 &&
      Q.blt ⟨3, 10⟩ (Q.div (Q.nat reciprocal_count) (Q.nat given_list.length))
  -- Check for coordinated rating attacks
  let low_ratings_given :=
    (given_list.filter (fun r => r.rating.score ≤ 3)).length
  let lowCampaign :=
    low_ratings_given > 5 && given_list.length > 0 &&
      Q.blt ⟨7, 10⟩ (Q.div (Q.nat low_ratings_given) (Q.nat given_list.length))
  let is_suspicious := reciprocal || lowCampaign
  let confidence_score : Q :=
    Q.add (if reciprocal then ⟨4, 10⟩ else ⟨0, 1⟩)
      (if lowCampaign then ⟨3, 10⟩ else ⟨0, 1⟩)
  let evidence :=
    (if reciprocal then ["Reciprocal rating pattern"] else []) ++
      (if lowCampaign then ["Coordinated low rating pattern"] else [])
  let recommended_penalty :=
    if is_suspicious then
      KARMA_PENALTY_MULTIPLIER * 3 * Q.floorNat (Q.mul confidence_score (Q.nat 100))
    else 0
  { is_suspicious := is_suspicious,
    violation_type :=
      if is_suspicious then some ViolationType.RatingManipulation else none,
    confidence_score := confidence_score,
    evidence := evidence,
    recommended_penalty := recommended_penalty }

/-- `compliance::apply_abuse_penalty` (`saturating_sub`). -/
def apply_abuse_penalty (st : Store) (env : Env) (agent : Addr)
    (violation : ComplianceViolation) : Except ContractError Store := do
  let karma_score := (st.karma_scores agent).getD KarmaScore.default
  let penalty_amount := violation.penalty_applied
  let karma_score :=
    { karma_score with
        current_score := karma_score.current_score - penalty_amount,
        last_updated := env.block_time }
  let st := { st with karma_scores := mapSave st.karma_scores agent karma_score }
  let penalty_key := agent ++ ":" ++ toString env.block_time
  return { st with karma_penalties := mapSave st.karma_penalties penalty_key penalty_amount }

/-- `base_limit` of `compliance::check_rate_limit`. -/
def base_limit (action_type : String) : Nat :=
  if action_type == "rating" then SPAM_RATING_THRESHOLD
  else if action_type == "interaction" then BOT_BEHAVIOR_THRESHOLD
  else 20

/-- `karma_multiplier` of `compliance::check_rate_limit`. -/
def karma_multiplier (score : Nat) : Q :=
  if score > 1000 then ⟨2, 1⟩
  else if score > 500 then ⟨3, 2⟩
  else if score > 100 then ⟨6, 5⟩
  else ⟨1, 1⟩

/-- `effective_limit = (base_limit as f64 * karma_multiplier) as u32`:
for the three base limits and four multipliers the `f64` product rounds
to the exact value, so the truncating cast is the floor of the exact
rational product. -/
def effective_limit (action_type : String) (score : Nat) : Nat :=
  Q.floorNat (Q.mul (Q.nat (base_limit action_type)) (karma_multiplier score))

/-- `compliance::check_rate_limit`.  The tracker is keyed by the agent
address alone (`RATE_LIMIT_TRACKERS`, `tracker_key = agent_address`). -/
def check_rate_limit (st : Store) (env : Env) (agent : Addr)
    (action_type : String) : Bool × Store :=
  let current_time := env.block_time
  let karma_score := (st.karma_scores agent).getD KarmaScore.default
  let eff := effective_limit action_type karma_score.current_score
  -- Get or create rate limit tracker
  let tracker := (st.rate_limit_trackers agent).getD
    { agent_address := agent, action_type := action_type, count := 0,
      window_start := current_time, last_action := current_time }
  -- Reset counter if window has passed
  let tracker :=
    if current_time - tracker.window_start > RATING_PATTERN_WINDOW then
      { tracker with count := 0, window_start := current_time }
    else tracker
  -- Check if limit would be exceeded
  if tracker.count ≥ eff then (false, st)
  else
    let tracker :=
      { tracker with count := tracker.count + 1, last_action := current_time }
    (true, { st with rate_limit_trackers := mapSave st.rate_limit_trackers agent tracker })

/-- `compliance::run_abuse_detection`. -/
def run_abuse_detection (st : Store) (env : Env) (agent : Addr) :
    List AbuseDetectionResult :=
  [detect_spam_ratings st env agent,
   detect_bot_behavior st env agent,
   detect_rating_manipulation st env agent]

/-! ## Balance ledger and helpers (`helpers.rs`) -/

/-- `helpers::get_agent_karma_score` (`unwrap_or_default`). -/
def get_agent_karma_score (st : Store) (agent : Addr) : Nat :=
  karmaOf st agent

/-- `helpers::spend_karma`. -/
def spend_karma (st : Store) (agent : Addr) (amount : Nat) :
    Except ContractError Store :=
  let current_karma := get_agent_karma_score st agent
  if current_karma < amount then
    Except.error (ContractError.InsufficientKarma amount current_karma)
  else
  -- Enforce minimum karma balance (agents must keep at least 5 karma)
  let minimum_balance := 5
  let remaining_karma := current_karma - amount
  if remaining_karma < minimum_balance then
    Except.error (ContractError.MinimumRequirementsNotMet
      "Cannot spend karma below minimum balance")
  else do
  let karma_score ← mustLoad (st.karma_scores agent) "karma score not found"
  let karma_score :=
    { karma_score with current_score := karma_score.current_score - amount }
  let st := { st with karma_scores := mapSave st.karma_scores agent karma_score }
  let (earned, spent) := (st.karma_balance agent).getD (0, 0)
  return { st with karma_balance := mapSave st.karma_balance agent (earned, spent + amount) }

/-- `helpers::award_karma` (per-call cap 100, ceiling 10,000). -/
def award_karma (st : Store) (agent : Addr) (amount : Nat) :
    Except ContractError Store := do
  let daily_cap := 100
  let adjusted_amount := min amount daily_cap
  let karma_score := (st.karma_scores agent).getD KarmaScore.default
  let new_score := karma_score.current_score + adjusted_amount
  let max_karma_cap := 10000
  let karma_score :=
    { karma_score with current_score := min new_score max_karma_cap }
  let st := { st with karma_scores := mapSave st.karma_scores agent karma_score }
  let (earned, spent) := (st.karma_balance agent).getD (0, 0)
  return { st with karma_balance := mapSave st.karma_balance agent (earned + adjusted_amount, spent) }

/-- Base earning table of `helpers::earn_karma_from_rating`. -/
def base_earning_for (rating_score : Nat) : Nat :=
  match rating_score with
  | 6 => 5
  | 7 => 10
  | 8 => 20
  | 9 => 35
  | 10 => 50
  | _ => 0

/-- `helpers::earn_karma_from_rating`. -/
def earn_karma_from_rating (st : Store) (agent : Addr) (rating_score : Nat)
    (rater_karma : Nat) : Except ContractError (Nat × Store) :=
  if rating_score < 6 then
    Except.ok (0, st)
  else
  let base_earning := base_earning_for rating_score
  let rater_bonus :=
    if rater_karma ≥ 500 then base_earning / 2
    else if rater_karma ≥ 200 then base_earning / 4
    else 0
  let total_earning := base_earning + rater_bonus
  (award_karma st agent total_earning).map (fun st => (total_earning, st))

/-- Progressive penalty table of `helpers::apply_karma_penalty`. -/
def penalty_amount_for (rating_score : Nat) : Nat :=
  match rating_score with
  | 3 => 5
  | 2 => 15
  | 1 => 30
  | _ => 0

/-- `helpers::apply_karma_penalty` (clamped at zero by an explicit
comparison before `checked_sub`). -/
def apply_karma_penalty (st : Store) (agent : Addr) (rating_score : Nat) :
    Except ContractError (Nat × Store) :=
  if rating_score ≥ 4 then
    Except.ok (0, st)
  else
  let penalty := penalty_amount_for rating_score
  let karma_score := (st.karma_scores agent).getD KarmaScore.default
  let karma_score :=
    if karma_score.current_score ≥ penalty then
      { karma_score with current_score := karma_score.current_score - penalty }
    else
      { karma_score with current_score := 0 }
  Except.ok (penalty, { st with karma_scores := mapSave st.karma_scores agent karma_score })

/-- `helpers::generate_rating_id`. -/
def generate_rating_id (rater rated_agent : Addr) (interaction_hash : String)
    (timestamp : Nat) : String :=
  rater ++ ":" ++ rated_agent ++ ":" ++ interaction_hash ++ ":" ++ toString timestamp

/-- Rust `char::is_ascii_hexdigit`. -/
def isAsciiHexdigit (c : Char) : Bool :=
  (c ≥ '0' && c ≤ '9') || (c ≥ 'a' && c ≤ 'f') || (c ≥ 'A' && c ≤ 'F')

/-- `helpers::validate_interaction_hash`. -/
def validate_interaction_hash (interaction_hash : String) :
    Except ContractError Unit :=
  if interaction_hash.length < 32 || interaction_hash.length > 128 then
    Except.error (ContractError.InteractionNotFound interaction_hash)
  else
    let is_valid_hex := interaction_hash.data.all isAsciiHexdigit
    let is_repeated_pattern := interaction_hash.length ≥ 64 &&
      interaction_hash.data.all (fun c => c.isAlphanum || c == '_')
    if !is_valid_hex && !is_repeated_pattern then
      Except.error (ContractError.InteractionNotFound interaction_hash)
    else Except.ok ()

/-- `helpers::check_minimum_requirements`. -/
def check_minimum_requirements (st : Store) (agent : Addr)
    (operation : String) : Except ContractError Unit := do
  let config ← mustLoad st.config "config not found"
  let agent_karma := get_agent_karma_score st agent
  let required_karma :=
    if operation == "rating" then config.karma_config.min_karma_for_rating
    else if operation == "voting" then config.karma_config.min_karma_for_voting
    else if operation == "proposal" then config.karma_config.min_karma_for_proposal
    else 0
  if agent_karma < required_karma then
    throw (ContractError.MinimumRequirementsNotMet "Insufficient karma")
  else
    return ()

/-! ## Scoring engine (`karma.rs`) -/

/-- `karma::INTERACTION_BONUS_WEIGHT`. -/
def INTERACTION_BONUS_WEIGHT : Nat := 10

/-- Ratings received by an agent in ascending primary-key order
(`ratings().idx.rated_agent` range). -/
def ratingsOfRated (st : Store) (agent : Addr) : List StoredRating :=
  (ratingsAscending st).filter (fun r => r.rating.rated_address == agent)

/-- `karma::calculate_base_score_enhanced`.  The function reads the wall
clock (`SystemTime::now`), passed here as `sysNow`; `age_seconds` uses
`saturating_sub` as in the source.  Returns (base karma, weighted
average, rating count). -/
def calculate_base_score_enhanced (ratings : List StoredRating)
    (sysNow : Nat) : Nat × Q × Nat :=
  if ratings.isEmpty then (0, Q.nat 0, 0)
  else
    let rating_count := ratings.length
    let terms := ratings.map (fun r =>
      let rating_score : Q := Q.nat r.rating.score
      let age_seconds := sysNow - r.rating.timestamp
      let age_days : Q := Q.div (Q.nat age_seconds) (Q.nat (24 * 60 * 60))
      let recency_weight : Q :=
        Q.div (Q.nat 1) (Q.add (Q.nat 1) (Q.mul age_days ⟨1, 100⟩))
      let quality_weight : Q :=
        if Q.ble rating_score ⟨2, 1⟩ || Q.ble ⟨9, 1⟩ rating_score then ⟨8, 10⟩
        else ⟨1, 1⟩
      let final_weight := Q.mul recency_weight quality_weight
      (Q.mul rating_score final_weight, final_weight))
    let total_weighted_score := Q.sum (terms.map (fun t => t.1))
    let total_weight := Q.sum (terms.map (fun t => t.2))
    let weighted_average :=
      if Q.blt ⟨0, 1⟩ total_weight then Q.div total_weighted_score total_weight
      else Q.nat 0
    let base_karma :=
      if Q.ble ⟨5, 1⟩ weighted_average then
        -- Positive karma with exponential scaling for high ratings
        let positive_factor := Q.div (Q.sub weighted_average ⟨5, 1⟩) ⟨5, 1⟩
        let exponential_factor := Q.mul positive_factor positive_factor
        Q.floorNat (Q.mul (Q.mul exponential_factor (Q.nat 100)) (Q.nat rating_count))
      else
        -- Minimal karma for poor ratings; a negative f64 `as u128` is 0,
        -- matching the saturation of `Q.floorNat`
        let poor_factor := Q.div (Q.sub ⟨5, 1⟩ weighted_average) ⟨4, 1⟩
        Q.floorNat (Q.mul (Q.mul (Q.sub ⟨1, 1⟩ poor_factor) (Q.nat 100)) ⟨1, 10⟩)
    (base_karma, weighted_average, rating_count)

/-- `karma::calculate_time_decay` (thresholds 7/30/90 days in seconds). -/
def calculate_time_decay (st : Store) (env : Env) (agent : Addr) : Q :=
  let last_activity :=
    match st.karma_scores agent with
    | some karma => karma.last_updated
    | none => env.block_time
  let time_since_activity := env.block_time - last_activity
  if time_since_activity ≤ 7 * 24 * 60 * 60 then ⟨1, 1⟩
  else if time_since_activity ≤ 30 * 24 * 60 * 60 then ⟨95, 100⟩
  else if time_since_activity ≤ 90 * 24 * 60 * 60 then ⟨85, 100⟩
  else ⟨7, 10⟩

/-- `karma::apply_time_decay`: `(score as f64 * factor) as u128`. -/
def apply_time_decay (base_score : Nat) (decay_factor : Q) : Nat :=
  Q.floorNat (Q.mul (Q.nat base_score) decay_factor)

/-- `karma::calculate_interaction_bonus_enhanced`.  Reads the wall clock
(`sysNow`) for the 30-day activity check; the `deps`/`agent` arguments of
the source are unused by its body.  `INTERACTION_BONUS_WEIGHT / 2` and
`/ 4` are `u128` integer divisions (5 and 2). -/
def calculate_interaction_bonus_enhanced (ratings : List StoredRating)
    (sysNow : Nat) : Nat :=
  let interaction_count := ratings.length
  if interaction_count == 0 then 0
  else
    let base_bonus :=
      if interaction_count ≤ 10 then
        interaction_count * INTERACTION_BONUS_WEIGHT
      else if interaction_count ≤ 50 then
        10 * INTERACTION_BONUS_WEIGHT +
          (interaction_count - 10) * (INTERACTION_BONUS_WEIGHT / 2)
      else
        10 * INTERACTION_BONUS_WEIGHT + 40 * (INTERACTION_BONUS_WEIGHT / 2) +
          (interaction_count - 50) * (INTERACTION_BONUS_WEIGHT / 4)
    let recent_ratings := (ratings.filter (fun r =>
      sysNow - r.rating.timestamp ≤ 30 * 24 * 60 * 60)).length
    let frequency_bonus :=
      if recent_ratings ≥ 5 then INTERACTION_BONUS_WEIGHT * 2 else 0
    let unique_raters :=
      ((ratings.map (fun r => r.rating.rater_address)).dedup).length
    let diversity_bonus :=
      if unique_raters ≥ 5 then INTERACTION_BONUS_WEIGHT else 0
    base_bonus + frequency_bonus + diversity_bonus

/-- Rater karma as read inside
`karma::calculate_contextual_modifiers_enhanced` (`unwrap_or(0)`). -/
def raterKarmaOf (st : Store) (r : StoredRating) : Nat :=
  ((st.karma_scores r.rating.rater_address).map (fun k => k.current_score)).getD 0

/-- `karma::calculate_contextual_modifiers_enhanced`.  The signed
modifier accumulates in `i128`; the sum is order-independent. -/
def calculate_contextual_modifiers_enhanced (st : Store)
    (ratings : List StoredRating) : ℤ :=
  if ratings.isEmpty then 0
  else
    let high_ratings := (ratings.filter (fun r => r.rating.score ≥ 8)).length
    let total_ratings := ratings.length
    -- Consistency bonus (CONSISTENCY_BONUS_THRESHOLD = 10, VALUE = 50)
    let consistency : ℤ := if high_ratings ≥ 10 then 50 else 0
    -- Excellence bonus (90%+ ratings ≥ 8 among ≥ 20)
    let excellence : ℤ :=
      if total_ratings ≥ 20 ∧
          Q.ble ⟨9, 10⟩ (Q.div (Q.nat high_ratings) (Q.nat total_ratings)) = true
      then 100 else 0
    let poor_ratings := (ratings.filter (fun r => r.rating.score < 4)).length
    let very_poor_ratings := (ratings.filter (fun r => r.rating.score ≤ 2)).length
    -- Progressive penalties (LOW_KARMA_INTERACTION_PENALTY = 5)
    let poor_penalty : ℤ := (poor_ratings * 5 : Nat)
    let very_poor_penalty : ℤ := (very_poor_ratings * 5 * 2 : Nat)
    -- Improvement bonus comparing history halves
    let improvement : ℤ :=
      if ratings.length ≥ 10 then
        let early_half := ratings.take (ratings.length / 2)
        let recent_half := ratings.drop (ratings.length / 2)
        let recent_avg := meanQ (recent_half.map (fun r => r.rating.score))
        let early_avg := meanQ (early_half.map (fun r => r.rating.score))
        if Q.blt (Q.add early_avg ⟨1, 1⟩) recent_avg then
          (INTERACTION_BONUS_WEIGHT * 3 : Nat)
        else 0
      else 0
    let high_karma_interactions :=
      (ratings.filter (fun r => raterKarmaOf st r ≥ 500)).length
    let low_karma_interactions :=
      (ratings.filter (fun r => raterKarmaOf st r < 100)).length
    -- HIGH_KARMA_INTERACTION_BONUS = 20
    let rater_bonus : ℤ := (high_karma_interactions * 20 : Nat)
    let gaming_penalty : ℤ :=
      if low_karma_interactions > total_ratings / 2 then (5 * 2 : Nat) else 0
    consistency + excellence - poor_penalty - very_poor_penalty +
      improvement + rater_bonus - gaming_penalty

/-- `karma::apply_contextual_modifiers` (clamped at zero by an explicit
comparison before `checked_sub`). -/
def apply_contextual_modifiers (base_score : Nat) (modifier : ℤ) :
    Except ContractError Nat :=
  if modifier ≥ 0 then
    Except.ok (base_score + modifier.toNat)
  else
    let penalty := (-modifier).toNat
    if base_score ≥ penalty then Except.ok (base_score - penalty)
    else Except.ok 0

/-- Rust `char::to_digit(16)`. -/
def hexDigitVal (c : Char) : Option Nat :=
  if c ≥ '0' && c ≤ '9' then some (c.toNat - '0'.toNat)
  else if c ≥ 'a' && c ≤ 'f' then some (c.toNat - 'a'.toNat + 10)
  else if c ≥ 'A' && c ≤ 'F' then some (c.toNat - 'A'.toNat + 10)
  else none

/-- `chars().filter_map(|c| c.to_digit(16)).skip(k).sum()`. -/
def hashDigitSum (s : String) (skip : Nat) : Nat :=
  (((s.data.filterMap hexDigitVal)).drop skip).sum

/-- `karma::parse_oracle_performance_data` (60–100 range). -/
def parse_oracle_performance_data (data_hash : String) : Nat :=
  hashDigitSum data_hash 0 % 41 + 60

/-- `karma::parse_oracle_cross_chain_data` (20–100 range). -/
def parse_oracle_cross_chain_data (data_hash : String) : Nat :=
  hashDigitSum data_hash 1 % 81 + 20

/-- `karma::parse_oracle_sentiment_data` (40–100 range). -/
def parse_oracle_sentiment_data (data_hash : String) : Nat :=
  hashDigitSum data_hash 2 % 61 + 40

/-- `karma::calculate_external_factors_enhanced`.  The per-entry factors
`15 * 2.0`, `10 * 1.5` and `5 * 1.0` are exact in `f64`, so each cast
term is the integer product 30/15/5; the freshness factor
(`calculate_oracle_freshness_factor`) is the constant `0.9`. -/
def calculate_external_factors_enhanced (st : Store) (agent : Addr) : Nat :=
  let performance_bonus :=
    match st.oracle_data (agent, "performance") with
    | some h => parse_oracle_performance_data h * 30
    | none => 0
  let cross_chain_bonus :=
    match st.oracle_data (agent, "cross_chain") with
    | some h => parse_oracle_cross_chain_data h * 15
    | none => 0
  let sentiment_bonus :=
    match st.oracle_data (agent, "sentiment") with
    | some h => parse_oracle_sentiment_data h * 5
    | none => 0
  let external_bonus : Nat :=
    performance_bonus + cross_chain_bonus + sentiment_bonus
  Q.floorNat (Q.mul (Q.nat external_bonus) ⟨9, 10⟩)

/-- `karma::generate_calculation_hash`.  The SHA-256 digest is modelled
as an injective encoding of the hashed triple. -/
def generate_calculation_hash (agent : Addr) (timestamp : Nat)
    (score : Nat) : String :=
  agent ++ "|" ++ toString timestamp ++ "|" ++ toString score

/-- `karma::calculate_karma_score`. -/
def calculate_karma_score (st : Store) (env : Env) (agent : Addr)
    (sysNow : Nat) : Except ContractError KarmaCalculation := do
  let _config ← mustLoad st.config "config not found"
  let current_karma := (st.karma_scores agent).getD
    { KarmaScore.default with last_updated := env.block_time }
  let agent_ratings := ratingsOfRated st agent
  if agent_ratings.isEmpty then
    -- No ratings yet: apply only time decay to the existing score
    let time_decay := calculate_time_decay st env agent
    let decayed_score := apply_time_decay current_karma.current_score time_decay
    return { agent_address := agent, current_score := decayed_score,
             previous_score := current_karma.current_score,
             factors := { average_rating := Q.nat 0, rating_count := 0,
                          interaction_frequency := 0, time_decay := time_decay,
                          external_factors := some 0 },
             last_updated := env.block_time,
             calculation_hash :=
               generate_calculation_hash agent env.block_time decayed_score }
  else
    let (base_score, average_rating, rating_count) :=
      calculate_base_score_enhanced agent_ratings sysNow
    let time_decay := calculate_time_decay st env agent
    let interaction_bonus :=
      calculate_interaction_bonus_enhanced agent_ratings sysNow
    let contextual_modifier :=
      calculate_contextual_modifiers_enhanced st agent_ratings
    let external_factors := calculate_external_factors_enhanced st agent
    let base_with_decay := apply_time_decay base_score time_decay
    let interaction_adjusted := base_with_decay + interaction_bonus
    let context_adjusted ←
      apply_contextual_modifiers interaction_adjusted contextual_modifier
    let final_score := context_adjusted + external_factors
    let final_score := min final_score 10000
    return { agent_address := agent, current_score := final_score,
             previous_score := current_karma.current_score,
             factors := { average_rating := average_rating,
                          rating_count := rating_count,
                          interaction_frequency := interaction_bonus,
                          time_decay := time_decay,
                          external_factors := some external_factors },
             last_updated := env.block_time,
             calculation_hash :=
               generate_calculation_hash agent env.block_time final_score }

/-- `karma::update_karma_score`. -/
def update_karma_score (st : Store) (env : Env) (agent : Addr)
    (calculation : KarmaCalculation) : Store :=
  let current_karma := (st.karma_scores agent).getD
    { KarmaScore.default with last_updated := env.block_time }
  let updated_karma : KarmaScore :=
    { current_score := calculation.current_score,
      previous_score := current_karma.current_score,
      last_updated := env.block_time,
      total_ratings := calculation.factors.rating_count,
      average_rating := calculation.factors.average_rating,
      interaction_count := current_karma.interaction_count + 1 }
  let st := { st with karma_scores := mapSave st.karma_scores agent updated_karma }
  { st with karma_history := mapSave st.karma_history (agent, env.block_time) calculation }

/-- `karma::validate_rating_score`. -/
def validate_rating_score (score : Nat) : Except ContractError Unit :=
  if score < 1 ∨ score > 10 then
    Except.error (ContractError.InvalidRatingScore score)
  else Except.ok ()

/-- `karma::validate_rating_window`. -/
def validate_rating_window (interaction_timestamp current_time : Nat)
    (window_seconds : Nat) : Except ContractError Unit :=
  if current_time - interaction_timestamp > window_seconds then
    Except.error (ContractError.RatingWindowExpired "unknown")
  else Except.ok ()

/-- `u64::from_str_radix(s, 16)` over a character list. -/
def parseHexNat (cs : List Char) : Option Nat :=
  if cs.isEmpty then none
  else cs.foldl (fun acc c =>
    match acc, hexDigitVal c with
    | some a, some v => some (a * 16 + v)
    | _, _ => none) (some 0)

/-- `karma::simulate_interaction_timestamp_from_hash` (last 8 characters
parsed as hex, offset within 48 hours). -/
def simulate_interaction_timestamp_from_hash (interaction_hash : String)
    (current_time : Nat) : Except ContractError Nat :=
  let suffix := interaction_hash.data.drop (interaction_hash.length - 8)
  match parseHexNat suffix with
  | none => Except.error (ContractError.InteractionNotFound interaction_hash)
  | some hash_value =>
    let offset_seconds := hash_value % (48 * 60 * 60)
    Except.ok (current_time - offset_seconds)

/-- `karma::validate_rating_window_with_hash`. -/
def validate_rating_window_with_hash (interaction_hash : String)
    (current_time : Nat) (window_seconds : Nat) :
    Except ContractError Unit := do
  validate_interaction_hash interaction_hash
  let simulated_interaction_time ←
    simulate_interaction_timestamp_from_hash interaction_hash current_time
  validate_rating_window simulated_interaction_time current_time window_seconds

/-! ## Entry points (`contract.rs`) -/

/-- `contract::update_leaderboard`. -/
def update_leaderboard (st : Store) (agent : Addr) (new_karma_score : Nat) :
    Store :=
  let old_karma := ((st.karma_scores agent).map (fun k => k.current_score)).getD 0
  let st :=
    if old_karma > 0 then
      { st with leaderboard := mapRemove st.leaderboard old_karma }
    else st
  if new_karma_score > 0 then
    { st with leaderboard := mapSave st.leaderboard new_karma_score agent }
  else st

/-- `contract::execute_submit_rating`.  `info.sender` is `sender`;
`deps.api.addr_validate` is the identity on the well-formed addresses
used here.  The `Response` attributes are elided; the returned value is
the mutated store. -/
def execute_submit_rating (st : Store) (env : Env) (sender : Addr)
    (rated_agent : Addr) (score : Nat) (feedback : Option String)
    (interaction_hash : String) (sysNow : Nat) :
    Except ContractError Store := do
  let config ← mustLoad st.config "config not found"
  let rater := sender
  let rated_agent_addr := rated_agent
  -- Validate inputs
  validate_rating_score score
  validate_interaction_hash interaction_hash
  -- Check if rater is trying to rate themselves
  if rater = rated_agent_addr then
    throw ContractError.CannotRateSelf
  else do
  -- Check minimum karma requirements for rating
  check_minimum_requirements st rater "rating"
  -- Check rate limiting for rating submissions
  let (rate_ok, st) := check_rate_limit st env rater "rating"
  if !rate_ok then
    throw (ContractError.RateLimitExceeded "rating")
  else do
  -- Check for duplicate ratings
  let tracker_key := (interaction_hash, rater)
  if (st.rating_trackers tracker_key).isSome then
    throw (ContractError.RatingAlreadySubmitted interaction_hash)
  else do
  -- Validate rating window (24 hours)
  validate_rating_window_with_hash interaction_hash env.block_time
    config.karma_config.rating_window
  -- Charge rating fee
  let st ← spend_karma st rater config.karma_config.rating_fee
  -- Generate unique rating ID
  let rating_counter := st.rating_counter
  let st := { st with rating_counter := rating_counter + 1 }
  let rating_id :=
    generate_rating_id rater rated_agent_addr interaction_hash env.block_time
  let rating : Rating :=
    { id := rating_id, rater_address := rater,
      rated_address := rated_agent_addr, score := score, feedback := feedback,
      interaction_hash := interaction_hash, timestamp := env.block_time,
      block_height := env.block_height }
  let stored_rating : StoredRating :=
    { rating := rating, processed := false,
      fee_paid := config.karma_config.rating_fee }
  -- Save rating
  let st := { st with ratings_store := assocSave st.ratings_store rating_id stored_rating }
  -- Create duplicate prevention tracker
  let tracker : RatingTracker :=
    { interaction_hash := interaction_hash, rater := rater,
      submitted_at := env.block_time }
  let st := { st with rating_trackers := mapSave st.rating_trackers tracker_key tracker }
  -- Apply karma earning/penalty based on rating score
  let rater_karma := get_agent_karma_score st rater
  let (_karma_earned, st) ←
    earn_karma_from_rating st rated_agent_addr score rater_karma
  let (_karma_penalty, st) ← apply_karma_penalty st rated_agent_addr score
  -- Recalculate karma for the rated agent
  let karma_calculation ← calculate_karma_score st env rated_agent_addr sysNow
  let st := update_karma_score st env rated_agent_addr karma_calculation
  -- Update leaderboard
  return update_leaderboard st rated_agent_addr karma_calculation.current_score

/-- `contract::execute_recalculate_karma`. -/
def execute_recalculate_karma (st : Store) (env : Env) (agent : Addr)
    (sysNow : Nat) : Except ContractError Store := do
  let karma_calculation ← calculate_karma_score st env agent sysNow
  let st := update_karma_score st env agent karma_calculation
  return update_leaderboard st agent karma_calculation.current_score

/-- `format!("{:?}", violation_type)`. -/
def violationTypeName : ViolationType → String
  | ViolationType.SpamRating => "SpamRating"
  | ViolationType.RatingManipulation => "RatingManipulation"
  | ViolationType.BotBehavior => "BotBehavior"
  | ViolationType.SuspiciousPattern => "SuspiciousPattern"
  | ViolationType.RateLimitExceeded => "RateLimitExceeded"

/-- `contract::execute_run_abuse_detection`: persists a violation record
and applies the penalty for every suspicious detection result. -/
def execute_run_abuse_detection (st : Store) (env : Env) (agent : Addr) :
    Except ContractError Store := do
  let detection_results := run_abuse_detection st env agent
  detection_results.foldlM (fun st result => do
    if result.is_suspicious then
      let violation_id := agent ++ ":" ++
        (match result.violation_type with
         | some v => violationTypeName v
         | none => "unknown") ++ ":" ++ toString env.block_time
      let violation : ComplianceViolation :=
        { agent_address := agent,
          violation_type :=
            result.violation_type.getD ViolationType.SuspiciousPattern,
          severity := Q.floorNat (Q.mul result.confidence_score (Q.nat 10)),
          timestamp := env.block_time,
          evidence := String.intercalate "; " result.evidence,
          penalty_applied := result.recommended_penalty,
          disputed := false }
      let st := { st with compliance_violations := mapSave st.compliance_violations violation_id violation }
      apply_abuse_penalty st env agent violation
    else pure st) st

/-- `contract::execute_create_dispute` (`info.sender` is the challenger). -/
def execute_create_dispute (st : Store) (env : Env) (sender : Addr)
    (violation_id : String) (stake_amount : Nat) (evidence : String) :
    Except ContractError Store := do
  let (_case_id, st) ←
    create_dispute st env sender violation_id stake_amount evidence
  return st

/-- Resolution-string parsing of `contract::execute_resolve_dispute`. -/
def parseResolution (resolution : String) :
    Except ContractError DisputeResolution :=
  if resolution == "confirmed" then Except.ok DisputeResolution.ViolationConfirmed
  else if resolution == "overturned" then Except.ok DisputeResolution.ViolationOverturned
  else if resolution == "partial" then Except.ok DisputeResolution.PartialOverturned
  else Except.error (ContractError.ComplianceViolation "Invalid resolution type")

/-- `contract::execute_resolve_dispute` (admin only). -/
def execute_resolve_dispute (st : Store) (env : Env) (sender : Addr)
    (case_id : String) (resolution : String) : Except ContractError Store := do
  let config ← mustLoad st.config "config not found"
  if sender ≠ config.admin then
    throw ContractError.AdminRequired
  else do
    let dispute_resolution ← parseResolution resolution
    resolve_dispute st env case_id dispute_resolution

/-- The externally-triggered operations of `contract::execute` that the
spec's atomicity statement ranges over (submit rating, recalculate
score, run detection, create/resolve dispute). -/
inductive Operation where
  | SubmitRating (sender rated_agent : Addr) (score : Nat)
      (feedback : Option String) (interaction_hash : String)
  | RecalculateKarma (agent : Addr)
  | RunAbuseDetection (agent : Addr)
  | CreateDispute (sender : Addr) (violation_id : String)
      (stake_amount : Nat) (evidence : String)
  | ResolveDispute (sender : Addr) (case_id : String) (resolution : String)

/-- The dispatch of `contract::execute` restricted to those operations. -/
def execute (st : Store) (env : Env) (sysNow : Nat) :
    Operation → Except ContractError Store
  | Operation.SubmitRating sender rated score feedback hash =>
    execute_submit_rating st env sender rated score feedback hash sysNow
  | Operation.RecalculateKarma agent =>
    execute_recalculate_karma st env agent sysNow
  | Operation.RunAbuseDetection agent =>
    execute_run_abuse_detection st env agent
  | Operation.CreateDispute sender violation_id stake evidence =>
    execute_create_dispute st env sender violation_id stake evidence
  | Operation.ResolveDispute sender case_id resolution =>
    execute_resolve_dispute st env sender case_id resolution

/-- Modelled from the spec: "each externally-triggered operation …
commits atomically — any failure aborts with zero partial mutation" (§5)
and "A failed operation leaves all records unchanged (transactional
all-or-nothing)" (§7).  The rollback of storage writes when a contract
entry point returns an error is performed by the CosmWasm host
(the wasmd transaction machinery), which is not part of this repository;
`commit` is that transaction boundary: the mutations of `execute` reach
the persistent store only on success. -/
def commit (st : Store) (result : Except ContractError Store) : Store :=
  match result with
  | Except.ok st2 => st2
  | Except.error _ => st

/-! ## Specification-side definitions and concrete stores -/

/-- The current-count computation of
`contract::query_get_rate_limit_status` for a requested
(agent, action type) pair: the single per-agent tracker
(`RATE_LIMIT_TRACKERS`) is consulted regardless of the requested action
type, and an expired window reads as zero.  The source's query takes its
time from a mock env; the embedding takes the time as a parameter. -/
def rate_limit_status_count (st : Store) (env : Env) (agent : Addr)
    (_a : String) : Nat :=
  match st.rate_limit_trackers agent with
  | none => 0
  | some tracker =>
    if env.block_time - tracker.window_start > RATING_PATTERN_WINDOW then 0
    else tracker.count

/-- The claim's spam-detection condition, read off the specification
sentence: the count exceeds 10, or the population standard deviation
falls below 0.5 among ≥ 5 ratings, or one target absorbs more than 80%
of the ratings with ≥ 3 ratings present (for non-negative values,
`sqrt v < 1/2 ↔ v < 1/4`). -/
def spam_suspicious_claim (st : Store) (env : Env) (agent : Addr) : Bool :=
  let l := spamWindowRatings st env agent
  let n := l.length
  let scores := l.map (fun r => r.rating.score)
  decide (n > 10) ||
    (decide (5 ≤ n) && Q.blt (popVarianceSq scores) ⟨1, 4⟩) ||
    (decide (3 ≤ n) && Q.blt ⟨4, 5⟩ (Q.div (Q.nat (maxTargetCount l)) (Q.nat n)))

/-- Per-rating weight of the claim's tier description: full weight
(10 units) for each of the first 10 ratings, half weight for each of the
next 40, quarter weight beyond 50 — the halves being the source's `u128`
integer divisions of `INTERACTION_BONUS_WEIGHT` (5 and 2). -/
def tier_weight (i : Nat) : Nat :=
  if i ≤ 10 then INTERACTION_BONUS_WEIGHT
  else if i ≤ 50 then INTERACTION_BONUS_WEIGHT / 2
  else INTERACTION_BONUS_WEIGHT / 4

/-- Sum of the per-rating tier weights over ratings 1..n. -/
def tier_sum (n : Nat) : Nat :=
  ((List.range n).map (fun i => tier_weight (i + 1))).sum

/-- A store with no records at all (all maps empty). -/
def emptyStore : Store :=
  { config := none, karma_scores := fun _ => none,
    karma_history := fun _ => none, ratings_store := [],
    rating_trackers := fun _ => none, leaderboard := fun _ => none,
    rating_counter := 0, oracle_data := fun _ => none,
    karma_balance := fun _ => none, compliance_violations := fun _ => none,
    dispute_cases := fun _ => none, rate_limit_trackers := fun _ => none,
    karma_penalties := fun _ => none }

/-- The default configuration written by `contract::instantiate`
(min karma 10/50/100, 24-hour window, 1 rating per interaction, fee 2). -/
def kcfg0 : KarmaConfig :=
  { min_karma_for_rating := 10, min_karma_for_voting := 50,
    min_karma_for_proposal := 100, rating_window := 86400,
    max_ratings_per_interaction := 1, rating_fee := 2 }

/-- The instantiate-time configuration record around `kcfg0`. -/
def cfg0 : Config :=
  { admin := "admin", agent_registry := "admin",
    interaction_logger := "admin", karma_config := kcfg0 }

/-- A stored rating record for concrete test states. -/
def mkRating (id : String) (rater rated : Addr) (score : Nat)
    (ts : Nat) : Rating :=
  { id := id, rater_address := rater, rated_address := rated,
    score := score, feedback := none, interaction_hash := "",
    timestamp := ts, block_height := 0 }

/-- A stored rating wrapper around `mkRating`. -/
def mkStoredRating (id : String) (rater rated : Addr) (score : Nat)
    (ts : Nat) : StoredRating :=
  { rating := mkRating id rater rated score ts,
    processed := false, fee_paid := 2 }

/-- A karma-score record holding just a current score. -/
def mkScore (score : Nat) : KarmaScore :=
  { current_score := score, previous_score := 0, last_updated := 0,
    total_ratings := 0, average_rating := Q.nat 0, interaction_count := 0 }

/-- Five same-score ratings by "alice" to five distinct targets. -/
def spamStore : Store :=
  { emptyStore with ratings_store :=
      [("r1", mkStoredRating "r1" "alice" "b1" 7 5000),
       ("r2", mkStoredRating "r2" "alice" "b2" 7 5000),
       ("r3", mkStoredRating "r3" "alice" "b3" 7 5000),
       ("r4", mkStoredRating "r4" "alice" "b4" 7 5000),
       ("r5", mkStoredRating "r5" "alice" "b5" 7 5000)] }

/-- Block env for `spamStore`. -/
def spamEnv : Env := { block_time := 5000, block_height := 1 }

/-- Five score-8 ratings of "bob" by five distinct raters at time
864000, under the default configuration. -/
def c3Store : Store :=
  { emptyStore with
      config := some cfg0,
      ratings_store :=
        [("r1", mkStoredRating "r1" "u1" "bob" 8 864000),
         ("r2", mkStoredRating "r2" "u2" "bob" 8 864000),
         ("r3", mkStoredRating "r3" "u3" "bob" 8 864000),
         ("r4", mkStoredRating "r4" "u4" "bob" 8 864000),
         ("r5", mkStoredRating "r5" "u5" "bob" 8 864000)] }

/-- Block env for `c3Store`. -/
def c3Env : Env := { block_time := 864000, block_height := 1 }

/-- A 64-character hexadecimal interaction hash whose last 8 characters
are zeros (so the simulated interaction time offset is 0). -/
def c8Hash : String := String.mk (List.replicate 56 'a') ++ "00000000"

/-- Rater "alice" with karma 100 and a fresh-window rate-limit tracker
already at count 9, under the default configuration. -/
def c8Store : Store :=
  { emptyStore with
      config := some cfg0,
      karma_scores := mapSave (fun _ => none) "alice" (mkScore 100),
      rate_limit_trackers := mapSave (fun _ => none) "alice"
        { agent_address := "alice", action_type := "rating", count := 9,
          window_start := 500000, last_action := 500000 } }

/-- Block env for `c8Store`. -/
def c8Env : Env := { block_time := 500000, block_height := 1 }

/-- A store whose only record is a fresh-window rate-limit tracker for
"alice" already at the base "rating" limit (count 10, karma absent). -/
def c4Store : Store :=
  { emptyStore with
      rate_limit_trackers := mapSave (fun _ => none) "alice"
        { agent_address := "alice", action_type := "rating", count := 10,
          window_start := 500000, last_action := 500000 } }

/-- As `c4Store` but with the counter still below the limit (count 3). -/
def c4StoreBelow : Store :=
  { emptyStore with
      rate_limit_trackers := mapSave (fun _ => none) "alice"
        { agent_address := "alice", action_type := "rating", count := 3,
          window_start := 500000, last_action := 500000 } }

/-- Block env for the rate-limit stores. -/
def rlEnv : Env := { block_time := 500000, block_height := 1 }

/-- Challenger "carol" holding 50 karma. -/
def c1Store : Store :=
  { emptyStore with
      karma_scores := mapSave (fun _ => none) "carol" (mkScore 50) }

/-- An already-resolved dispute case used for the resolved-case test. -/
def d1Case : DisputeCase :=
  { case_id := "d1", violation_id := "v0", challenger := "carol",
    stake_amount := 7, evidence := "", status := DisputeStatus.Resolved,
    created_at := 0, resolved_at := some 1,
    resolution := some DisputeResolution.ViolationConfirmed }

/-- As `c1Store`, plus the already-resolved dispute case "d1". -/
def c1StoreR : Store :=
  { c1Store with dispute_cases := mapSave (fun _ => none) "d1" d1Case }

/-- A manual violation record carrying a penalty of 40. -/
def v0 : ComplianceViolation :=
  { agent_address := "alice", violation_type := ViolationType.SpamRating,
    severity := 5, timestamp := 0, evidence := "", penalty_applied := 40,
    disputed := false }


/-- As `c8Store` but with the tracker count at 3, leaving room for a
second call to pass the rate limit. -/
def c8StoreB : Store :=
  { emptyStore with
      config := some cfg0,
      karma_scores := mapSave (fun _ => none) "alice" (mkScore 100),
      rate_limit_trackers := mapSave (fun _ => none) "alice"
        { agent_address := "alice", action_type := "rating", count := 3,
          window_start := 500000, last_action := 500000 } }

/-- The store left by a first successful rating submission on `c8Store`. -/
def c8Store1 : Store :=
  match execute_submit_rating c8Store c8Env "alice" "bob" 7 none c8Hash
      500000 with
  | Except.ok s => s
  | Except.error _ => emptyStore

/-- The store left by a first successful rating submission on `c8StoreB`. -/
def c8StoreB1 : Store :=
  match execute_submit_rating c8StoreB c8Env "alice" "bob" 7 none c8Hash
      500000 with
  | Except.ok s => s
  | Except.error _ => emptyStore

/-! ## Theorems -/

/-- C2: Atomicity on failure — for every externally-triggered operation
(submit rating, recalculate score, run detection, create or resolve
dispute) and every starting store, if the operation returns an error then
the committed persistent store is exactly the starting store, so every
record (rate-limit trackers, balances, ratings, karma scores, …) is
unchanged, in particular for a `submitRating` call failing at any
validation step. -/
theorem atomicity_on_failure (st : Store) (env : Env) (sysNow : Nat)
    (op : Operation) (e : ContractError)
    (h : execute st env sysNow op = Except.error e) :
    commit st (execute st env sysNow op) = st := by
  rw [h]
  rfl

/-- Witness for `atomicity_on_failure`: karma recalculation on an
uninstantiated store fails, and the committed store is unchanged. -/
theorem atomicity_on_failure_witness :
    commit emptyStore
        (execute emptyStore ⟨1000, 1⟩ 1000 (Operation.RecalculateKarma "bob")) =
      emptyStore :=
  atomicity_on_failure emptyStore ⟨1000, 1⟩ 1000
    (Operation.RecalculateKarma "bob") (ContractError.Std "config not found") rfl

/-- C4: Rate limiter semantics — `check_rate_limit` uses the effective
limit `floor(baseLimit × multiplier)` with base 10 for "rating", 50 for
"interaction", 20 otherwise, and multiplier 2.0 / 1.5 / 1.2 / 1.0 for
scores > 1000 / > 500 / > 100 / otherwise; with a non-expired window it
returns false without mutating any state when the counter is already at
the effective limit, and otherwise increments the counter and returns
true (also from a fresh tracker). -/
theorem rate_limiter_semantics (st : Store) (env : Env) (agent : Addr)
    (action_type : String) :
    (effective_limit action_type (karmaOf st agent) =
      Q.floorNat (Q.mul
        (Q.nat (if action_type = "rating" then 10
          else if action_type = "interaction" then 50 else 20))
        (if karmaOf st agent > 1000 then ⟨2, 1⟩
          else if karmaOf st agent > 500 then ⟨3, 2⟩
          else if karmaOf st agent > 100 then ⟨6, 5⟩ else ⟨1, 1⟩)))
    ∧ (∀ tr : RateLimitTracker, st.rate_limit_trackers agent = some tr →
        env.block_time - tr.window_start ≤ RATING_PATTERN_WINDOW →
        effective_limit action_type (karmaOf st agent) ≤ tr.count →
        check_rate_limit st env agent action_type = (false, st))
    ∧ (∀ tr : RateLimitTracker, st.rate_limit_trackers agent = some tr →
        env.block_time - tr.window_start ≤ RATING_PATTERN_WINDOW →
        tr.count < effective_limit action_type (karmaOf st agent) →
        check_rate_limit st env agent action_type =
          (true, { st with rate_limit_trackers := mapSave st.rate_limit_trackers agent { tr with count := tr.count + 1, last_action := env.block_time } }))
    ∧ (st.rate_limit_trackers agent = none →
        check_rate_limit st env agent action_type =
          (true, { st with rate_limit_trackers := mapSave st.rate_limit_trackers agent { agent_address := agent, action_type := action_type, count := 1, window_start := env.block_time, last_action := env.block_time } })) := by
  refine ⟨?_, ?_, ?_, ?_⟩
  · simp only [effective_limit, base_limit, karma_multiplier,
      SPAM_RATING_THRESHOLD, BOT_BEHAVIOR_THRESHOLD, beq_iff_eq]
  · intro tr htr hwin hcount
    unfold karmaOf at hcount
    unfold check_rate_limit
    rw [htr]
    simp only [Option.getD_some]
    have hw : ¬ (env.block_time - tr.window_start > RATING_PATTERN_WINDOW) := by
      omega
    rw [if_neg hw, if_pos hcount]
  · intro tr htr hwin hcount
    unfold karmaOf at hcount
    unfold check_rate_limit
    rw [htr]
    simp only [Option.getD_some]
    have hw : ¬ (env.block_time - tr.window_start > RATING_PATTERN_WINDOW) := by
      omega
    have hc : ¬ (effective_limit action_type
        ((st.karma_scores agent).getD KarmaScore.default).current_score ≤
          tr.count) := by omega
    rw [if_neg hw, if_neg hc]
  · intro htr
    have hpos : 0 < effective_limit action_type (karmaOf st agent) := by
      unfold effective_limit base_limit karma_multiplier
      split_ifs <;> decide
    unfold karmaOf at hpos
    unfold check_rate_limit
    rw [htr]
    simp only [Option.getD_none]
    have hw : ¬ (env.block_time - env.block_time > RATING_PATTERN_WINDOW) := by
      omega
    have hc : ¬ (effective_limit action_type
        ((st.karma_scores agent).getD KarmaScore.default).current_score ≤
          (0 : Nat)) := by omega
    rw [if_neg hw, if_neg hc]

/-- Witness for `rate_limiter_semantics`: an at-limit tracker rejects
without mutation, a below-limit tracker is incremented. -/
theorem rate_limiter_semantics_witness :
    check_rate_limit c4Store rlEnv "alice" "rating" = (false, c4Store) ∧
    check_rate_limit c4StoreBelow rlEnv "alice" "rating" =
      (true, { c4StoreBelow with rate_limit_trackers := mapSave c4StoreBelow.rate_limit_trackers "alice" { agent_address := "alice", action_type := "rating", count := 4, window_start := 500000, last_action := 500000 } }) :=
  ⟨(rate_limiter_semantics c4Store rlEnv "alice" "rating").2.1
      { agent_address := "alice", action_type := "rating", count := 10,
        window_start := 500000, last_action := 500000 } rfl (by decide) (by decide),
   (rate_limiter_semantics c4StoreBelow rlEnv "alice" "rating").2.2.1
      { agent_address := "alice", action_type := "rating", count := 3,
        window_start := 500000, last_action := 500000 } rfl (by decide) (by decide)⟩

/-- C10: Penalties saturate at zero — the abuse-violation penalty, the
poor-rating penalty for ratings ≤ 3, and a negative contextual modifier
all succeed (no arithmetic underflow) and clamp the subtraction at zero:
the new score is the truncated difference, and it is 0 whenever the
penalty is at least the current score. -/
theorem penalties_saturate_at_zero :
    (∀ (st : Store) (env : Env) (agent : Addr)
        (violation : ComplianceViolation),
      ∃ st2, apply_abuse_penalty st env agent violation = Except.ok st2 ∧
        karmaOf st2 agent = karmaOf st agent - violation.penalty_applied ∧
        (karmaOf st agent ≤ violation.penalty_applied →
          karmaOf st2 agent = 0))
    ∧ (∀ (st : Store) (agent : Addr) (rating_score : Nat),
        rating_score ≤ 3 →
      ∃ st2, apply_karma_penalty st agent rating_score =
          Except.ok (penalty_amount_for rating_score, st2) ∧
        karmaOf st2 agent = karmaOf st agent - penalty_amount_for rating_score ∧
        (karmaOf st agent ≤ penalty_amount_for rating_score →
          karmaOf st2 agent = 0))
    ∧ (∀ (base_score : Nat) (modifier : ℤ), modifier < 0 →
        apply_contextual_modifiers base_score modifier =
          Except.ok (base_score - (-modifier).toNat)) := by
  refine ⟨?_, ?_, ?_⟩
  · intro st env agent violation
    refine ⟨_, rfl, ?_, ?_⟩
    · simp [karmaOf, mapSave]
    · intro h
      simp [karmaOf, mapSave] at h ⊢
      omega
  · intro st agent rating_score hle
    unfold apply_karma_penalty
    rw [if_neg (show ¬ (rating_score ≥ 4) by omega)]
    refine ⟨_, rfl, ?_, ?_⟩
    · simp only [karmaOf, mapSave, if_pos, Option.getD_some]
      split_ifs with hcase
      · simp
      · simp only [KarmaScore.current_score]
        omega
    · intro h
      simp only [karmaOf, mapSave, if_pos, Option.getD_some] at h ⊢
      split_ifs <;> simp_all
  · intro base_score modifier hneg
    unfold apply_contextual_modifiers
    rw [if_neg (by omega)]
    by_cases hcase : base_score ≥ (-modifier).toNat
    · rw [if_pos hcase]
    · rw [if_neg hcase]
      congr 1
      omega

/-- Witness for `penalties_saturate_at_zero` at concrete penalties on an
empty store (score 0 stays 0). -/
theorem penalties_saturate_at_zero_witness :
    (∃ st2, apply_abuse_penalty emptyStore ⟨0, 0⟩ "alice" v0 = Except.ok st2 ∧
      karmaOf st2 "alice" = karmaOf emptyStore "alice" - v0.penalty_applied ∧
      (karmaOf emptyStore "alice" ≤ v0.penalty_applied →
        karmaOf st2 "alice" = 0)) ∧
    (∃ st2, apply_karma_penalty emptyStore "alice" 2 =
        Except.ok (penalty_amount_for 2, st2) ∧
      karmaOf st2 "alice" = karmaOf emptyStore "alice" - penalty_amount_for 2 ∧
      (karmaOf emptyStore "alice" ≤ penalty_amount_for 2 →
        karmaOf st2 "alice" = 0)) ∧
    apply_contextual_modifiers 7 (-9) = Except.ok (7 - ((9 : ℤ)).toNat) :=
  ⟨penalties_saturate_at_zero.1 emptyStore ⟨0, 0⟩ "alice" v0,
   penalties_saturate_at_zero.2.1 emptyStore "alice" 2 (by decide),
   penalties_saturate_at_zero.2.2 7 (-9) (by decide)⟩

/-- C1: Dispute stake arithmetic — with starting score B ≥ stake S,
`create_dispute` succeeds, debits the stake immediately (score B − S) and
creates a Pending case; resolving that case with Overturned restores the
score to B, with PartialOverturned sets it to B − S + S/2 (integer
division), and with Confirmed leaves it at B − S; resolving a case whose
status is not Pending fails with the already-resolved error. -/
theorem dispute_stake_arithmetic :
    (∀ (st : Store) (env env2 env3 env4 : Env) (challenger : Addr)
        (violation_id evidence : String) (stake : Nat),
      stake ≤ karmaOf st challenger →
      ∃ st2,
        create_dispute st env challenger violation_id stake evidence =
          Except.ok (disputeCaseId violation_id env, st2) ∧
        karmaOf st2 challenger = karmaOf st challenger - stake ∧
        (st2.dispute_cases (disputeCaseId violation_id env)).map
            DisputeCase.status = some DisputeStatus.Pending ∧
        (resolve_dispute st2 env2 (disputeCaseId violation_id env)
            DisputeResolution.ViolationOverturned).map
              (fun s => karmaOf s challenger) =
          Except.ok (karmaOf st challenger) ∧
        (resolve_dispute st2 env3 (disputeCaseId violation_id env)
            DisputeResolution.PartialOverturned).map
              (fun s => karmaOf s challenger) =
          Except.ok (karmaOf st challenger - stake + stake / 2) ∧
        (resolve_dispute st2 env4 (disputeCaseId violation_id env)
            DisputeResolution.ViolationConfirmed).map
              (fun s => karmaOf s challenger) =
          Except.ok (karmaOf st challenger - stake))
    ∧ (∀ (st : Store) (env : Env) (case_id : String)
        (resolution : DisputeResolution) (c : DisputeCase),
      st.dispute_cases case_id = some c →
      c.status ≠ DisputeStatus.Pending →
      resolve_dispute st env case_id resolution =
        Except.error (ContractError.DisputeAlreadyResolved case_id)) := by
  constructor
  · intro st env env2 env3 env4 challenger violation_id evidence stake hBS
    unfold karmaOf at hBS
    unfold create_dispute
    rw [if_neg (by omega)]
    refine ⟨_, rfl, ?_, ?_, ?_, ?_, ?_⟩
    · simp [karmaOf, mapSave]
    · simp [mapSave]
    · simp [resolve_dispute, mustLoad, mapSave, karmaOf, Except.map,
        bind, Except.bind, pure, Except.pure, Nat.sub_add_cancel hBS]
    · simp [resolve_dispute, mustLoad, mapSave, karmaOf, Except.map,
        bind, Except.bind, pure, Except.pure]
    · simp [resolve_dispute, mustLoad, mapSave, karmaOf, Except.map,
        bind, Except.bind, pure, Except.pure]
  · intro st env case_id resolution c hcase hstatus
    unfold resolve_dispute
    rw [hcase]
    simp only [mustLoad, bind, Except.bind]
    rw [if_pos hstatus]
    rfl

/-- Witness for `dispute_stake_arithmetic`: "carol" (50 karma) stakes 20
on violation "v1", and a pre-resolved case rejects resolution. -/
theorem dispute_stake_arithmetic_witness :
    (∃ st2,
      create_dispute c1Store ⟨100, 1⟩ "carol" "v1" 20 "ev" =
        Except.ok (disputeCaseId "v1" ⟨100, 1⟩, st2) ∧
      karmaOf st2 "carol" = karmaOf c1Store "carol" - 20 ∧
      (st2.dispute_cases (disputeCaseId "v1" ⟨100, 1⟩)).map
          DisputeCase.status = some DisputeStatus.Pending ∧
      (resolve_dispute st2 ⟨101, 1⟩ (disputeCaseId "v1" ⟨100, 1⟩)
          DisputeResolution.ViolationOverturned).map
            (fun s => karmaOf s "carol") =
        Except.ok (karmaOf c1Store "carol") ∧
      (resolve_dispute st2 ⟨102, 1⟩ (disputeCaseId "v1" ⟨100, 1⟩)
          DisputeResolution.PartialOverturned).map
            (fun s => karmaOf s "carol") =
        Except.ok (karmaOf c1Store "carol" - 20 + 20 / 2) ∧
      (resolve_dispute st2 ⟨103, 1⟩ (disputeCaseId "v1" ⟨100, 1⟩)
          DisputeResolution.ViolationConfirmed).map
            (fun s => karmaOf s "carol") =
        Except.ok (karmaOf c1Store "carol" - 20)) ∧
    resolve_dispute c1StoreR ⟨104, 1⟩ "d1"
        DisputeResolution.ViolationOverturned =
      Except.error (ContractError.DisputeAlreadyResolved "d1") :=
  ⟨dispute_stake_arithmetic.1 c1Store ⟨100, 1⟩ ⟨101, 1⟩ ⟨102, 1⟩ ⟨103, 1⟩
      "carol" "v1" "ev" 20 (by decide),
   dispute_stake_arithmetic.2 c1StoreR ⟨104, 1⟩ "d1"
      DisputeResolution.ViolationOverturned d1Case rfl (by decide)⟩

/-- Closed form of the summed per-rating tier weights. -/
theorem tier_sum_closed (n : Nat) :
    tier_sum n =
      10 * min n 10 + 5 * (min n 50 - min n 10) + 2 * (n - min n 50) := by
  induction n with
  | zero => rfl
  | succ n ih =>
    unfold tier_sum at ih ⊢
    rw [List.range_succ, List.map_append, List.sum_append, ih]
    simp only [List.map_cons, List.map_nil, List.sum_cons, List.sum_nil]
    unfold tier_weight INTERACTION_BONUS_WEIGHT
    split_ifs <;> omega

/-- C6: Interaction bonus tiers — for every non-empty rating list the
base interaction bonus pays the summed per-rating tier weights (10 units
for each of the first 10 ratings, 5 for each of the next 40, 2 — the
integer quarter of 10 — beyond 50), plus a flat bonus of 20 when at
least 5 ratings occurred in the trailing 30 days and a flat diversity
bonus of 10 when at least 5 distinct raters are present. -/
theorem interaction_bonus_tiers (ratings : List StoredRating) (sysNow : Nat)
    (h : ratings ≠ []) :
    calculate_interaction_bonus_enhanced ratings sysNow =
      tier_sum ratings.length +
        (if 5 ≤ (ratings.filter (fun r =>
            sysNow - r.rating.timestamp ≤ 30 * 24 * 60 * 60)).length
          then 20 else 0) +
        (if 5 ≤ ((ratings.map (fun r => r.rating.rater_address)).dedup).length
          then 10 else 0) := by
  unfold calculate_interaction_bonus_enhanced
  rw [if_neg (by simpa using h), tier_sum_closed]
  unfold INTERACTION_BONUS_WEIGHT
  simp only [ge_iff_le]
  split_ifs <;> omega

/-- Witness for `interaction_bonus_tiers` at a single rating (bonus 10,
no flat bonuses). -/
theorem interaction_bonus_tiers_witness :
    calculate_interaction_bonus_enhanced [mkStoredRating "r1" "a" "b" 7 0] 0 =
      tier_sum ([mkStoredRating "r1" "a" "b" 7 0] : List StoredRating).length +
        (if 5 ≤ (([mkStoredRating "r1" "a" "b" 7 0] :
            List StoredRating).filter (fun r =>
            0 - r.rating.timestamp ≤ 30 * 24 * 60 * 60)).length
          then 20 else 0) +
        (if 5 ≤ ((([mkStoredRating "r1" "a" "b" 7 0] :
            List StoredRating).map (fun r => r.rating.rater_address)).dedup).length
          then 10 else 0) :=
  interaction_bonus_tiers [mkStoredRating "r1" "a" "b" 7 0] 0
    (List.cons_ne_nil _ _)

/-- Counterexample to C5 as stated: five same-score ratings by "alice"
to five distinct targets satisfy the claim's condition (population
standard deviation 0 < 0.5 among ≥ 5 ratings) yet the detector does not
flag the principal — the code requires strictly more than 5 ratings for
the variance check and strictly more than 3 for the concentration
check. -/
theorem spam_detection_claim_counterexample :
    spam_suspicious_claim spamStore spamEnv "alice" = true ∧
    (detect_spam_ratings spamStore spamEnv "alice").is_suspicious = false :=
  ⟨rfl, rfl⟩

/-- C5 (amended): the spam detector flags a principal exactly when, over
the trailing 1-hour window of ratings given by the principal, the count
exceeds 10, or the population standard deviation falls below 0.5 among
more than 5 ratings, or one target absorbs more than 80% of the ratings
with more than 3 ratings present. -/
theorem spam_detection_conditions (st : Store) (env : Env) (agent : Addr) :
    (detect_spam_ratings st env agent).is_suspicious = true ↔
      ((spamWindowRatings st env agent).length > 10 ∨
        ((spamWindowRatings st env agent).length > 5 ∧
          Q.blt (popVarianceSq ((spamWindowRatings st env agent).map
            (fun r => r.rating.score))) ⟨1, 4⟩ = true) ∨
        ((spamWindowRatings st env agent).length > 3 ∧
          Q.blt ⟨4, 5⟩ (Q.div (Q.nat (maxTargetCount (spamWindowRatings st env agent)))
            (Q.nat (spamWindowRatings st env agent).length)) = true)) := by
  unfold detect_spam_ratings variance_lt_half
  simp only [List.length_map, SPAM_RATING_THRESHOLD, Bool.or_eq_true,
    Bool.and_eq_true, decide_eq_true_eq]
  by_cases h2 : (spamWindowRatings st env agent).length < 2
  · have h10 : ¬ ((spamWindowRatings st env agent).length > 10) := by omega
    have h5 : ¬ ((spamWindowRatings st env agent).length > 5) := by omega
    have h3 : ¬ ((spamWindowRatings st env agent).length > 3) := by omega
    simp [h2, h10, h5, h3]
  · simp only [if_neg h2, Bool.and_eq_true, decide_eq_true_eq]
    tauto

/-- Counterexample to C9 as stated: the rate-limit tracker is keyed by
the principal alone, so a successful `checkAndConsume` for
("alice", "rating") changes the count the contract reports for
("alice", "interaction") from 0 to 1. -/
theorem rate_limit_isolation_counterexample :
    (check_rate_limit emptyStore rlEnv "alice" "rating").1 = true ∧
    rate_limit_status_count emptyStore rlEnv "alice" "interaction" = 0 ∧
    rate_limit_status_count (check_rate_limit emptyStore rlEnv "alice"
        "rating").2 rlEnv "alice" "interaction" = 1 :=
  ⟨rfl, rfl, rfl⟩

/-- C9 (amended): the rate limiter keeps one tracker per principal,
shared by all action types; a successful `check_rate_limit` for
(principal, A) increments that shared counter, so the non-expired count
observed for (principal, B) grows by one for every action type B. -/
theorem rate_limit_shared_tracker (st : Store) (env : Env) (agent : Addr)
    (a : String) (h : (check_rate_limit st env agent a).1 = true) :
    ∀ b : String,
      rate_limit_status_count (check_rate_limit st env agent a).2 env agent b =
        rate_limit_status_count st env agent a + 1 := by
  intro b
  unfold check_rate_limit at h ⊢
  unfold rate_limit_status_count
  rcases htr : st.rate_limit_trackers agent with _ | tr
  · simp only [Option.getD_none, Nat.sub_self] at h ⊢
    split_ifs at h ⊢ with h1 h2
    all_goals simp_all [mapSave]
  · simp only [Option.getD_some] at h ⊢
    split_ifs at h ⊢ with h1 h2
    all_goals simp_all [mapSave]
    all_goals omega

/-- Witness for `rate_limit_shared_tracker`: consuming a "rating" action
on the empty store raises the count observed for "interaction" from 0 to
1. -/
theorem rate_limit_shared_tracker_witness :
    rate_limit_status_count (check_rate_limit emptyStore rlEnv "alice"
        "rating").2 rlEnv "alice" "interaction" =
      rate_limit_status_count emptyStore rlEnv "alice" "rating" + 1 :=
  rate_limit_shared_tracker emptyStore rlEnv "alice" "rating" rfl "interaction"

/-- C3 is violated by the code: `calculate_base_score_enhanced` and
`calculate_interaction_bonus_enhanced` read the wall clock
(`std::time::SystemTime::now()`) instead of using only storage and the
block env, so two invocations of the karma score calculation on the same
storage state and block env return different current scores when
executed at different real times — here 250 at wall time 864000 (the
five ratings fall in the 30-day activity window, frequency bonus 20)
versus 230 one month of wall time later. -/
theorem karma_calculation_reads_wall_clock :
    (calculate_karma_score c3Store c3Env "bob" 864000).map
        (fun c => c.current_score) = Except.ok 250 ∧
    (calculate_karma_score c3Store c3Env "bob" (864000 + 2592001)).map
        (fun c => c.current_score) = Except.ok 230 :=
  ⟨rfl, rfl⟩

/-- C7: Rating score validation — on an instantiated contract
`execute_submit_rating` succeeds only if 1 ≤ score ≤ 10, and every score
outside [1,10] fails with the invalid-score validation error
(`InvalidRatingScore`), the score check being the first validation
performed. -/
theorem rating_score_validation :
    (∀ (st : Store) (env : Env) (sender rated : Addr) (score : Nat)
        (feedback : Option String) (hash : String) (sysNow : Nat)
        (st2 : Store),
      execute_submit_rating st env sender rated score feedback hash sysNow =
        Except.ok st2 →
      1 ≤ score ∧ score ≤ 10)
    ∧ (∀ (st : Store) (env : Env) (sender rated : Addr) (score : Nat)
        (feedback : Option String) (hash : String) (sysNow : Nat)
        (cfg : Config),
      st.config = some cfg → (score < 1 ∨ 10 < score) →
      execute_submit_rating st env sender rated score feedback hash sysNow =
        Except.error (ContractError.InvalidRatingScore score)) := by
  constructor
  · intro st env sender rated score feedback hash sysNow st2 hok
    by_cases hs : score < 1 ∨ score > 10
    · exfalso
      unfold execute_submit_rating at hok
      rcases hcfg : st.config with _ | cfg
      · rw [hcfg] at hok
        simp [mustLoad, bind, Except.bind] at hok
      · rw [hcfg] at hok
        unfold validate_rating_score at hok
        rw [if_pos hs] at hok
        simp [mustLoad, bind, Except.bind] at hok
    · omega
  · intro st env sender rated score feedback hash sysNow cfg hcfg hs
    unfold execute_submit_rating
    rw [hcfg]
    unfold validate_rating_score
    rw [if_pos hs]
    simp [mustLoad, bind, Except.bind]

/-- Witness for `rating_score_validation`: scores 0 and 11 both fail
with the same validation error kind on a concrete instantiated store. -/
theorem rating_score_validation_witness :
    execute_submit_rating c8Store c8Env "alice" "bob" 0 none c8Hash 500000 =
      Except.error (ContractError.InvalidRatingScore 0) ∧
    execute_submit_rating c8Store c8Env "alice" "bob" 11 none c8Hash 500000 =
      Except.error (ContractError.InvalidRatingScore 11) :=
  ⟨rating_score_validation.2 c8Store c8Env "alice" "bob" 0 none c8Hash
      500000 cfg0 rfl (Or.inl (by decide)),
   rating_score_validation.2 c8Store c8Env "alice" "bob" 11 none c8Hash
      500000 cfg0 rfl (Or.inr (by decide))⟩

/-- `check_rate_limit` never touches the duplicate-prevention trackers,
the ratings store, or the configuration. -/
theorem check_rate_limit_preserves (st : Store) (env : Env) (agent : Addr)
    (a : String) :
    ((check_rate_limit st env agent a).2).rating_trackers =
        st.rating_trackers ∧
      ((check_rate_limit st env agent a).2).config = st.config := by
  constructor <;>
    (unfold check_rate_limit; unfold_let; split_ifs <;> rfl)

/-- `award_karma` always succeeds and only touches karma scores and
balances. -/
theorem award_karma_preserves (st : Store) (agent : Addr) (amount : Nat)
    (st2 : Store) (h : award_karma st agent amount = Except.ok st2) :
    st2.rating_trackers = st.rating_trackers := by
  unfold award_karma at h
  injection h with h2
  rw [← h2]

/-- `earn_karma_from_rating` only touches karma scores and balances. -/
theorem earn_karma_preserves (st : Store) (agent : Addr) (s k n : Nat)
    (st2 : Store) (h : earn_karma_from_rating st agent s k = Except.ok (n, st2)) :
    st2.rating_trackers = st.rating_trackers := by
  unfold earn_karma_from_rating award_karma at h
  split at h
  · injection h with h2
    injection h2 with ha hb
    rw [← hb]
  · simp only [Except.map] at h
    injection h with h2
    injection h2 with ha hb
    rw [← hb]

/-- `apply_karma_penalty` only touches karma scores. -/
theorem apply_karma_penalty_preserves (st : Store) (agent : Addr)
    (s n : Nat) (st2 : Store)
    (h : apply_karma_penalty st agent s = Except.ok (n, st2)) :
    st2.rating_trackers = st.rating_trackers := by
  unfold apply_karma_penalty at h
  split at h
  · injection h with h2
    injection h2 with ha hb
    rw [← hb]
  · injection h with h2
    injection h2 with ha hb
    rw [← hb]

/-- `update_karma_score` only touches karma scores and history. -/
theorem update_karma_score_preserves (st : Store) (env : Env) (agent : Addr)
    (c : KarmaCalculation) :
    (update_karma_score st env agent c).rating_trackers =
      st.rating_trackers := rfl

/-- `update_leaderboard` only touches the leaderboard. -/
theorem update_leaderboard_preserves (st : Store) (agent : Addr) (n : Nat) :
    (update_leaderboard st agent n).rating_trackers = st.rating_trackers := by
  unfold update_leaderboard
  unfold_let
  split_ifs <;> rfl

/-- A successful `execute_submit_rating` records the duplicate-prevention
tracker for its (interaction hash, rater) pair, and nothing executed
afterwards removes it. -/
theorem submit_ok_tracker_some (st : Store) (env : Env) (sender rated : Addr)
    (score : Nat) (feedback : Option String) (hash : String) (sysNow : Nat)
    (st2 : Store)
    (h : execute_submit_rating st env sender rated score feedback hash sysNow =
      Except.ok st2) :
    (st2.rating_trackers (hash, sender)).isSome = true := by
  unfold execute_submit_rating at h
  rcases hcfg : st.config with _ | cfg <;> rw [hcfg] at h
  · simp [mustLoad, bind, Except.bind] at h
  · simp only [mustLoad, bind, Except.bind] at h
    split at h
    · simp at h
    split at h
    · simp at h
    split at h
    · simp at h
    split at h
    · simp at h
    split at h
    · simp at h
    split at h
    · simp at h
    split at h
    · simp at h
    rename_i vsp heqsp
    split at h
    · simp at h
    rename_i vearn heqearn
    split at h
    · simp at h
    rename_i vpen heqpen
    split at h
    · simp at h
    rename_i vcalc heqcalc
    split at h
    · simp at h
    rename_i vc heqc
    simp only [pure, Except.pure] at h
    injection h with h2
    rw [← h2]
    rw [update_leaderboard_preserves, update_karma_score_preserves]
    rw [apply_karma_penalty_preserves _ _ _ _ _ heqcalc]
    rw [earn_karma_preserves _ _ _ _ _ _ heqpen]
    simp [mapSave]

/-- A successful `execute_submit_rating` requires that no
duplicate-prevention tracker existed for its (interaction hash, rater)
pair beforehand. -/
theorem submit_ok_tracker_pre_none (st : Store) (env : Env)
    (sender rated : Addr) (score : Nat) (feedback : Option String)
    (hash : String) (sysNow : Nat) (st2 : Store)
    (h : execute_submit_rating st env sender rated score feedback hash sysNow =
      Except.ok st2) :
    st.rating_trackers (hash, sender) = none := by
  unfold execute_submit_rating at h
  rcases hcfg : st.config with _ | cfg <;> rw [hcfg] at h
  · simp [mustLoad, bind, Except.bind] at h
  · simp only [mustLoad, bind, Except.bind] at h
    split at h
    · simp at h
    split at h
    · simp at h
    split at h
    · simp at h
    split at h
    · simp at h
    split at h
    · simp at h
    split at h
    · simp at h
    rename_i hdup
    rw [(check_rate_limit_preserves st env sender "rating").1] at hdup
    rcases hmem : st.rating_trackers (hash, sender) with _ | tr
    · rfl
    · rw [hmem] at hdup
      simp at hdup

/-- Counterexample to C8 as stated: on `c8Store` (rate-limit counter at
9 of 10) a first submission succeeds, and the repeated call with the
same (interactionRef, rater) fails — but with the rate-limit error, not
the duplicate-rating error, because the rate-limit check runs before the
duplicate check. -/
theorem duplicate_rejection_counterexample :
    (execute_submit_rating c8Store c8Env "alice" "bob" 7 none c8Hash
        500000).isOk = true ∧
    errorOf ((execute_submit_rating c8Store c8Env "alice" "bob" 7 none c8Hash
        500000).bind (fun st1 =>
          execute_submit_rating st1 c8Env "alice" "bob" 7 none c8Hash
            500000)) =
      some (ContractError.RateLimitExceeded "rating") :=
  ⟨rfl, rfl⟩

/-- C8 (amended): if a first `submitRating` with (interactionRef, rater)
succeeds, a second call with the same pair never succeeds; it fails with
the duplicate-rating error whenever it passes the checks that run
earlier (score and hash validation, self-rating, minimum karma, rate
limit), and otherwise with that earlier check's error. -/
theorem duplicate_rating_rejection :
    (∀ (st : Store) (env : Env) (sender rated : Addr) (score : Nat)
        (feedback : Option String) (hash : String) (sysNow : Nat)
        (st1 : Store) (env2 : Env) (rated2 : Addr) (score2 : Nat)
        (feedback2 : Option String) (sysNow2 : Nat) (st3 : Store),
      execute_submit_rating st env sender rated score feedback hash sysNow =
        Except.ok st1 →
      execute_submit_rating st1 env2 sender rated2 score2 feedback2 hash
          sysNow2 ≠ Except.ok st3)
    ∧ (∀ (st : Store) (env : Env) (sender rated : Addr) (score : Nat)
        (feedback : Option String) (hash : String) (sysNow : Nat)
        (st1 : Store) (env2 : Env) (rated2 : Addr) (score2 : Nat)
        (feedback2 : Option String) (sysNow2 : Nat),
      execute_submit_rating st env sender rated score feedback hash sysNow =
        Except.ok st1 →
      validate_rating_score score2 = Except.ok () →
      validate_interaction_hash hash = Except.ok () →
      sender ≠ rated2 →
      check_minimum_requirements st1 sender "rating" = Except.ok () →
      (check_rate_limit st1 env2 sender "rating").1 = true →
      execute_submit_rating st1 env2 sender rated2 score2 feedback2 hash
          sysNow2 =
        Except.error (ContractError.RatingAlreadySubmitted hash)) := by
  constructor
  · intro st env sender rated score feedback hash sysNow st1 env2 rated2
      score2 feedback2 sysNow2 st3 h1 h2
    have hsome := submit_ok_tracker_some st env sender rated score feedback
      hash sysNow st1 h1
    have hnone := submit_ok_tracker_pre_none st1 env2 sender rated2 score2
      feedback2 hash sysNow2 st3 h2
    rw [hnone] at hsome
    simp at hsome
  · intro st env sender rated score feedback hash sysNow st1 env2 rated2
      score2 feedback2 sysNow2 h1 hval hhash hself hmin hrl
    have hsome := submit_ok_tracker_some st env sender rated score feedback
      hash sysNow st1 h1
    rcases hcfg : st1.config with _ | cfg
    · exfalso
      unfold check_minimum_requirements at hmin
      rw [hcfg] at hmin
      simp [mustLoad, bind, Except.bind] at hmin
    · unfold execute_submit_rating
      rw [hcfg]
      simp only [mustLoad, bind, Except.bind, hval, hhash, hself, hmin, hrl,
        (check_rate_limit_preserves st1 env2 sender "rating").1, hsome,
        Bool.not_true, if_false, ite_false]
      simp only [if_true, ite_eq_right_iff]
      rfl

/-- Witness for `duplicate_rating_rejection`: after a first successful
submission on `c8StoreB`, the repeated call fails with the
duplicate-rating error (all earlier checks pass), and after a first
successful submission on `c8Store` the repeated call never succeeds. -/
theorem duplicate_rating_rejection_witness :
    execute_submit_rating c8StoreB1 c8Env "alice" "bob" 7 none c8Hash
        500000 =
      Except.error (ContractError.RatingAlreadySubmitted c8Hash) ∧
    execute_submit_rating c8Store1 c8Env "alice" "bob" 7 none c8Hash
        500000 ≠ Except.ok emptyStore :=
  ⟨duplicate_rating_rejection.2 c8StoreB c8Env "alice" "bob" 7 none c8Hash
      500000 c8StoreB1 c8Env "bob" 7 none 500000 rfl rfl rfl (by decide)
      rfl rfl,
   duplicate_rating_rejection.1 c8Store c8Env "alice" "bob" 7 none c8Hash
      500000 c8Store1 c8Env "bob" 7 none 500000 emptyStore rfl⟩

end AgentKarma
